import Mathlib

/-
Shallow embedding of `src/nexus/resource_security_user.go` from the
terraform-provider-nexus repository: the `nexus_security_user` Terraform
resource with its schema and the five lifecycle callbacks
(Create, Read, Update, Delete, Exists).

The Terraform SDK's `ResourceData` is modelled as a record holding the
resource identity (`d.Id()`), the current configuration values (`d.Get`)
and the prior-state values, so that `d.HasChange(f)` is the inequality of
the prior and current value of `f`.  The injected Nexus client is modelled
as a record of response functions; every lifecycle function additionally
returns the list of client calls it issued, in order, so that statements
about which remote calls happen can be expressed.
-/

namespace NexusProvider

/-- The `security.User` record sent to and received from the Nexus client
(`go-nexus-client/nexus3/schema/security`). -/
structure User where
  userID : String
  firstName : String
  lastName : String
  emailAddress : String
  password : String
  status : String
  roles : List String
  deriving Repr, DecidableEq

/-- Model of the SDK `schema.ResourceData`: the resource identity, the current
configuration values, and the prior-state values backing `d.HasChange`.
Terraform's `roles` set is modelled as a list of strings. -/
structure ResourceData where
  id : String
  userid : String
  firstname : String
  lastname : String
  email : String
  password : String
  status : String
  roles : List String
  useridOld : String
  firstnameOld : String
  lastnameOld : String
  emailOld : String
  passwordOld : String
  statusOld : String
  rolesOld : List String
  deriving Repr, DecidableEq

/-- One call issued against the Nexus client (`client.Security.User.*`). -/
inductive ClientCall where
  | createCall (u : User)
  | getCall (id : String)
  | changePasswordCall (id : String) (pw : String)
  | updateCall (id : String) (u : User)
  | deleteCall (id : String)
  deriving Repr, DecidableEq

/-- Model of the injected `nexus.NexusClient`: the response each remote
operation would give.  `none` is a successful `error == nil` result; `get`
returns the `(*security.User, error)` pair of `client.Security.User.Get`. -/
structure Client where
  create : User → Option String
  get : String → Option User × Option String
  changePassword : String → String → Option String
  update : String → User → Option String
  delete : String → Option String

/-- `d.HasChange("password")`: the password differs from prior state. -/
def ResourceData.hasChangePassword (d : ResourceData) : Bool :=
  d.passwordOld != d.password

/-- The disjunction of `d.HasChange` over firstname, lastname, email, status
and roles, exactly as tested in `resourceSecurityUserUpdate`. -/
def ResourceData.hasChangeOtherFields (d : ResourceData) : Bool :=
  (d.firstnameOld != d.firstname) || (d.lastnameOld != d.lastname) ||
  (d.emailOld != d.email) || (d.statusOld != d.status) ||
  (d.rolesOld != d.roles)

/-- `getSecurityUserFromResourceData`: builds the `security.User` payload from
the current configuration values of `d`. -/
def getSecurityUserFromResourceData (d : ResourceData) : User :=
  { userID := d.userid
    firstName := d.firstname
    lastName := d.lastname
    emailAddress := d.email
    password := d.password
    status := d.status
    roles := d.roles }

/-- `resourceSecurityUserRead`: fetch the user by `d.Id()`; surface a client
error; on a nil user clear the identity and succeed; otherwise copy email,
firstname, lastname, roles, status and userid into state. -/
def resourceSecurityUserRead (client : Client) (d : ResourceData) :
    ResourceData × Option String × List ClientCall :=
  match client.get d.id with
  | (_, some e) => (d, some e, [ClientCall.getCall d.id])
  | (none, none) => ({ d with id := "" }, none, [ClientCall.getCall d.id])
  | (some user, none) =>
      ({ d with
          email := user.emailAddress
          firstname := user.firstName
          lastname := user.lastName
          roles := user.roles
          status := user.status
          userid := user.userID },
       none, [ClientCall.getCall d.id])

/-- `resourceSecurityUserCreate`: build the user payload, call the client's
create; on error return it; on success set the identity to the user's
`UserID` and re-invoke Read. -/
def resourceSecurityUserCreate (client : Client) (d : ResourceData) :
    ResourceData × Option String × List ClientCall :=
  let user := getSecurityUserFromResourceData d
  match client.create user with
  | some e => (d, some e, [ClientCall.createCall user])
  | none =>
      let res := resourceSecurityUserRead client { d with id := user.userID }
      (res.1, res.2.1, ClientCall.createCall user :: res.2.2)

/-- `resourceSecurityUserUpdate`: if the password changed call ChangePassword
(returning its error on failure); if any of the other five fields changed
call the general Update with the full payload (returning its error on
failure); finally re-invoke Read. -/
def resourceSecurityUserUpdate (client : Client) (d : ResourceData) :
    ResourceData × Option String × List ClientCall :=
  let pwCalls : List ClientCall :=
    if d.hasChangePassword then [ClientCall.changePasswordCall d.id d.password] else []
  let pwErr : Option String :=
    if d.hasChangePassword then client.changePassword d.id d.password else none
  match pwErr with
  | some e => (d, some e, pwCalls)
  | none =>
      let user := getSecurityUserFromResourceData d
      let upCalls : List ClientCall :=
        if d.hasChangeOtherFields then [ClientCall.updateCall d.id user] else []
      let upErr : Option String :=
        if d.hasChangeOtherFields then client.update d.id user else none
      match upErr with
      | some e => (d, some e, pwCalls ++ upCalls)
      | none =>
          let res := resourceSecurityUserRead client d
          (res.1, res.2.1, pwCalls ++ upCalls ++ res.2.2)

/-- `resourceSecurityUserDelete`: call the client's delete; on error return it
unchanged; on success clear the identity. -/
def resourceSecurityUserDelete (client : Client) (d : ResourceData) :
    ResourceData × Option String × List ClientCall :=
  match client.delete d.id with
  | some e => (d, some e, [ClientCall.deleteCall d.id])
  | none => ({ d with id := "" }, none, [ClientCall.deleteCall d.id])

/-- `resourceSecurityUserExists`: `user, err := Get(d.Id()); return user != nil, err`. -/
def resourceSecurityUserExists (client : Client) (d : ResourceData) :
    Bool × Option String :=
  let res := client.get d.id
  (res.1.isSome, res.2)

/-- Model of one entry of the SDK schema map: the flags and attributes the
source sets on the fields of `resourceSecurityUser`. -/
structure SchemaField where
  required : Bool := false
  optionalField : Bool := false
  sensitive : Bool := false
  forceNew : Bool := false
  defaultValue : Option String := none
  validateFunc : Option (String → Bool) := none

/-- `validation.StringInSlice(valid, ignoreCase)` from the SDK validation
helpers: the value passes when it matches one of the allowed strings
(case-insensitively when `ignoreCase` is set). -/
def stringInSlice (valid : List String) (ignoreCase : Bool) (v : String) : Bool :=
  valid.any fun s => v == s || (ignoreCase && (v.toLower == s.toLower))

/-- The `userid` schema entry: required string, `ForceNew: true`. -/
def useridSchema : SchemaField :=
  { required := true, forceNew := true }

/-- The `status` schema entry: optional, default `"active"`, validated by
`validation.StringInSlice([]string{"active", "disabled"}, false)`. -/
def statusSchema : SchemaField :=
  { optionalField := true
    defaultValue := some "active"
    validateFunc := some (stringInSlice ["active", "disabled"] false) }

/-- The full schema map of `resourceSecurityUser`. -/
def resourceSecurityUserSchema : List (String × SchemaField) :=
  [("userid", useridSchema),
   ("firstname", { required := true }),
   ("lastname", { required := true }),
   ("email", { required := true }),
   ("password", { required := true, sensitive := true }),
   ("roles", { optionalField := true }),
   ("status", statusSchema)]

/-- Whether a configured value passes a schema field's ValidateFunc. -/
def schemaAccepts (f : SchemaField) (v : String) : Bool :=
  match f.validateFunc with
  | none => true
  | some vf => vf v

/-- Modelled from the spec: the host plugin runtime (the Terraform SDK, whose
code is not part of this repository) runs each field's ValidateFunc at
plan/validation time and rejects a failing configuration before invoking any
lifecycle callback, hence before any remote client call. -/
def planGatedCreate (client : Client) (d : ResourceData) :
    ResourceData × Option String × List ClientCall :=
  if schemaAccepts statusSchema d.status then resourceSecurityUserCreate client d
  else (d, some "expected status to be one of [active disabled]", [])

/-- Modelled from the spec: the host runtime substitutes the schema default
for an omitted optional value. -/
def effectiveStatus (configured : Option String) : Option String :=
  match configured with
  | some s => some s
  | none => statusSchema.defaultValue

/-- A client that stores the submitted user: create succeeds, and get returns
the stored user exactly at its id. -/
def storingClient (stored : User) : Client :=
  { create := fun _ => none
    get := fun i => (if i == stored.userID then some stored else none, none)
    changePassword := fun _ _ => none
    update := fun _ _ => none
    delete := fun _ => none }

/-- Concrete configuration matching the example block of the source's doc
comment, with prior state equal to the configuration. -/
def sampleData : ResourceData :=
  { id := "admin"
    userid := "admin"
    firstname := "Administrator"
    lastname := "User"
    email := "nexus@example.com"
    password := "admin123"
    status := "active"
    roles := ["nx-admin"]
    useridOld := "admin"
    firstnameOld := "Administrator"
    lastnameOld := "User"
    emailOld := "nexus@example.com"
    passwordOld := "admin123"
    statusOld := "active"
    rolesOld := ["nx-admin"] }

/-- A client on which every operation succeeds and get finds no user. -/
def absentClient : Client :=
  { create := fun _ => none
    get := fun _ => (none, none)
    changePassword := fun _ _ => none
    update := fun _ _ => none
    delete := fun _ => none }

/-- A client on which every operation fails with the same message. -/
def errClient (msg : String) : Client :=
  { create := fun _ => some msg
    get := fun _ => (none, some msg)
    changePassword := fun _ _ => some msg
    update := fun _ _ => some msg
    delete := fun _ => some msg }

/-- A client whose ChangePassword succeeds but whose general Update fails. -/
def updateFailClient : Client :=
  { create := fun _ => none
    get := fun _ => (none, none)
    changePassword := fun _ _ => none
    update := fun _ _ => some "update failed"
    delete := fun _ => none }

/-- Claim C3: whenever the client reports no such user (a nil user with a nil
error), Read clears the resource's identity, leaves everything else in place,
and returns success. -/
theorem read_notFound_clears_identity (client : Client) (d : ResourceData)
    (h : client.get d.id = (none, none)) :
    resourceSecurityUserRead client d =
      ({ d with id := "" }, none, [ClientCall.getCall d.id]) := by
  simp [resourceSecurityUserRead, h]

theorem read_notFound_clears_identity_witness :
    resourceSecurityUserRead absentClient sampleData =
      ({ sampleData with id := "" }, none, [ClientCall.getCall sampleData.id]) :=
  read_notFound_clears_identity absentClient sampleData rfl

/-- Claim C4: when the client's create operation fails, Create returns that
error unchanged, the state (identity included) is unchanged, and only the
create call was issued. -/
theorem create_error_leaves_identity_unset (client : Client) (d : ResourceData)
    (e : String) (h : client.create (getSecurityUserFromResourceData d) = some e) :
    resourceSecurityUserCreate client d =
      (d, some e, [ClientCall.createCall (getSecurityUserFromResourceData d)]) := by
  simp [resourceSecurityUserCreate, h]

theorem create_error_leaves_identity_unset_witness :
    resourceSecurityUserCreate (errClient "boom") sampleData =
      (sampleData, some "boom",
        [ClientCall.createCall (getSecurityUserFromResourceData sampleData)]) :=
  create_error_leaves_identity_unset (errClient "boom") sampleData "boom" rfl

/-- Claim C5: when the client returns an existing user, Read copies the remote
email, firstname, lastname, roles, status and userid into local state, and the
local password field is left unchanged. -/
theorem read_copies_all_but_password (client : Client) (d : ResourceData)
    (u : User) (h : client.get d.id = (some u, none)) :
    resourceSecurityUserRead client d =
      ({ d with
          email := u.emailAddress
          firstname := u.firstName
          lastname := u.lastName
          roles := u.roles
          status := u.status
          userid := u.userID },
        none, [ClientCall.getCall d.id]) ∧
    (resourceSecurityUserRead client d).1.password = d.password := by
  constructor <;> simp [resourceSecurityUserRead, h]

theorem read_copies_all_but_password_witness :
    (resourceSecurityUserRead
        (storingClient (getSecurityUserFromResourceData sampleData)) sampleData =
      ({ sampleData with
          email := "nexus@example.com"
          firstname := "Administrator"
          lastname := "User"
          roles := ["nx-admin"]
          status := "active"
          userid := "admin" },
        none, [ClientCall.getCall sampleData.id])) ∧
    (resourceSecurityUserRead
        (storingClient (getSecurityUserFromResourceData sampleData)) sampleData).1.password =
      sampleData.password :=
  read_copies_all_but_password
    (storingClient (getSecurityUserFromResourceData sampleData)) sampleData
    (getSecurityUserFromResourceData sampleData) (by decide)

/-- Claim C8: Delete on client success clears the identity; on client error it
returns the error unchanged and leaves the state (identity included) as it
was; in both cases exactly the delete call is issued. -/
theorem delete_success_clears_error_preserves (client : Client) (d : ResourceData) :
    (client.delete d.id = none →
      resourceSecurityUserDelete client d =
        ({ d with id := "" }, none, [ClientCall.deleteCall d.id])) ∧
    (∀ e, client.delete d.id = some e →
      resourceSecurityUserDelete client d =
        (d, some e, [ClientCall.deleteCall d.id])) := by
  constructor
  · intro h
    simp [resourceSecurityUserDelete, h]
  · intro e h
    simp [resourceSecurityUserDelete, h]

theorem delete_success_clears_error_preserves_witness :
    (resourceSecurityUserDelete absentClient sampleData =
      ({ sampleData with id := "" }, none, [ClientCall.deleteCall sampleData.id])) ∧
    (resourceSecurityUserDelete (errClient "denied") sampleData =
      (sampleData, some "denied", [ClientCall.deleteCall sampleData.id])) :=
  ⟨(delete_success_clears_error_preserves absentClient sampleData).1 rfl,
   (delete_success_clears_error_preserves (errClient "denied") sampleData).2 "denied" rfl⟩

/-- Claim C1: for every valid configuration, Create followed by the Read it
triggers — against a client that stores what Create submitted — succeeds and
yields local state whose userid, firstname, lastname, email, status and roles
equal the submitted configuration. -/
theorem create_then_read_matches_config (d : ResourceData)
    (_hv : schemaAccepts statusSchema d.status = true) :
    (resourceSecurityUserCreate (storingClient (getSecurityUserFromResourceData d)) d).2.1 =
      none ∧
    (resourceSecurityUserCreate (storingClient (getSecurityUserFromResourceData d)) d).1.userid =
      d.userid ∧
    (resourceSecurityUserCreate (storingClient (getSecurityUserFromResourceData d)) d).1.firstname =
      d.firstname ∧
    (resourceSecurityUserCreate (storingClient (getSecurityUserFromResourceData d)) d).1.lastname =
      d.lastname ∧
    (resourceSecurityUserCreate (storingClient (getSecurityUserFromResourceData d)) d).1.email =
      d.email ∧
    (resourceSecurityUserCreate (storingClient (getSecurityUserFromResourceData d)) d).1.status =
      d.status ∧
    (resourceSecurityUserCreate (storingClient (getSecurityUserFromResourceData d)) d).1.roles =
      d.roles := by
  refine ⟨?_, ?_, ?_, ?_, ?_, ?_, ?_⟩ <;>
    simp [resourceSecurityUserCreate, resourceSecurityUserRead, storingClient,
      getSecurityUserFromResourceData]

theorem create_then_read_matches_config_witness :
    schemaAccepts statusSchema sampleData.status = true ∧
    (resourceSecurityUserCreate
        (storingClient (getSecurityUserFromResourceData sampleData)) sampleData).2.1 = none ∧
    (resourceSecurityUserCreate
        (storingClient (getSecurityUserFromResourceData sampleData)) sampleData).1.userid =
      sampleData.userid ∧
    (resourceSecurityUserCreate
        (storingClient (getSecurityUserFromResourceData sampleData)) sampleData).1.email =
      sampleData.email :=
  ⟨by decide,
   (create_then_read_matches_config sampleData (by decide)).1,
   (create_then_read_matches_config sampleData (by decide)).2.1,
   (create_then_read_matches_config sampleData (by decide)).2.2.2.2.1⟩

/-- Claim C7: a status value outside {"active", "disabled"} fails the schema's
StringInSlice validation and the plan-gated lifecycle rejects the
configuration with an empty client-call trace (no remote call); the status
schema declares the default "active", so an omitted status becomes "active". -/
theorem status_enum_rejected_before_remote (client : Client) (d : ResourceData)
    (h1 : d.status ≠ "active") (h2 : d.status ≠ "disabled") :
    schemaAccepts statusSchema d.status = false ∧
    planGatedCreate client d =
      (d, some "expected status to be one of [active disabled]", []) ∧
    statusSchema.defaultValue = some "active" ∧
    effectiveStatus none = some "active" := by
  have e1 : (d.status == "active") = false := beq_eq_false_iff_ne.mpr h1
  have e2 : (d.status == "disabled") = false := beq_eq_false_iff_ne.mpr h2
  have hacc : schemaAccepts statusSchema d.status = false := by
    simp [schemaAccepts, statusSchema, stringInSlice, e1, e2]
  exact ⟨hacc, by simp [planGatedCreate, hacc], rfl, rfl⟩

theorem status_enum_rejected_before_remote_witness :
    schemaAccepts statusSchema "locked" = false ∧
    planGatedCreate absentClient { sampleData with status := "locked" } =
      ({ sampleData with status := "locked" },
        some "expected status to be one of [active disabled]", []) ∧
    statusSchema.defaultValue = some "active" ∧
    effectiveStatus none = some "active" :=
  status_enum_rejected_before_remote absentClient { sampleData with status := "locked" }
    (by decide) (by decide)

/-- Helper: Read either keeps the identity or clears it to the empty string. -/
theorem read_id_unchanged_or_cleared (client : Client) (d : ResourceData) :
    (resourceSecurityUserRead client d).1.id = d.id ∨
    (resourceSecurityUserRead client d).1.id = "" := by
  rcases hg : client.get d.id with ⟨_ | u, _ | e⟩ <;>
    simp [resourceSecurityUserRead, hg]

/-- Helper: Update's resulting state is the input state, or the state produced
by the reconciling Read. -/
theorem update_result_state (client : Client) (d : ResourceData) :
    (resourceSecurityUserUpdate client d).1 = d ∨
    (resourceSecurityUserUpdate client d).1 = (resourceSecurityUserRead client d).1 := by
  unfold resourceSecurityUserUpdate
  cases hp : d.hasChangePassword <;>
    cases hof : d.hasChangeOtherFields <;>
    rcases hcp : client.changePassword d.id d.password with _ | e1 <;>
    rcases hup : client.update d.id (getSecurityUserFromResourceData d) with _ | e2 <;>
    simp [hp, hof, hcp, hup]

/-- Claim C9: the userid schema entry is marked ForceNew (any userid change
forces replacement), and the Update path never rebinds the identity of an
existing resource: after Update the identity is either unchanged or cleared
to empty (when the reconciling Read finds the user gone), never set to a
different login id. -/
theorem userid_forceNew_update_identity_stable (client : Client) (d : ResourceData) :
    useridSchema.forceNew = true ∧
    ((resourceSecurityUserUpdate client d).1.id = d.id ∨
     (resourceSecurityUserUpdate client d).1.id = "") := by
  refine ⟨rfl, ?_⟩
  rcases update_result_state client d with h | h
  · left
    rw [h]
  · rw [h]
    exact read_id_unchanged_or_cleared client d

/-- Configuration where both the password and the email differ from prior
state. -/
def pwEmailChangedData : ResourceData :=
  { sampleData with password := "newpw", email := "new@example.com" }

/-- Configuration where only the email differs from prior state. -/
def emailOnlyChangedData : ResourceData :=
  { sampleData with email := "new@example.com" }

/-- A client whose ChangePassword fails and whose other operations succeed. -/
def pwFailClient : Client :=
  { create := fun _ => none
    get := fun _ => (none, none)
    changePassword := fun _ _ => some "pw boom"
    update := fun _ _ => none
    delete := fun _ => none }

/-- Claim C2, counterexample: with both password and email changed but the
ChangePassword call failing, the general Update call is not issued even
though non-password fields differ, so "the general Update call is issued if
and only if at least one of firstname, lastname, email, status, or roles
differs" is false for this invocation. -/
theorem update_general_call_iff_cex :
    ¬ ((ClientCall.updateCall pwEmailChangedData.id
          (getSecurityUserFromResourceData pwEmailChangedData) ∈
        (resourceSecurityUserUpdate pwFailClient pwEmailChangedData).2.2) ↔
       pwEmailChangedData.hasChangeOtherFields = true) := by
  decide

/-- Claim C2 as amended: the ChangePassword call is issued iff the password
differs from prior state; provided the ChangePassword call is not issued or
succeeds, the general Update call is issued iff at least one of firstname,
lastname, email, status or roles differs; and when both conditions hold and
the password call succeeds, both calls occur in the same invocation. -/
theorem update_call_conditions (client : Client) (d : ResourceData) :
    ((ClientCall.changePasswordCall d.id d.password ∈
        (resourceSecurityUserUpdate client d).2.2) ↔ d.hasChangePassword = true) ∧
    ((d.hasChangePassword = true → client.changePassword d.id d.password = none) →
      ((ClientCall.updateCall d.id (getSecurityUserFromResourceData d) ∈
          (resourceSecurityUserUpdate client d).2.2) ↔
        d.hasChangeOtherFields = true)) ∧
    (d.hasChangePassword = true → d.hasChangeOtherFields = true →
      client.changePassword d.id d.password = none →
      ClientCall.changePasswordCall d.id d.password ∈
        (resourceSecurityUserUpdate client d).2.2 ∧
      ClientCall.updateCall d.id (getSecurityUserFromResourceData d) ∈
        (resourceSecurityUserUpdate client d).2.2) := by
  refine ⟨?_, ?_, ?_⟩
  · cases hp : d.hasChangePassword <;>
      cases hof : d.hasChangeOtherFields <;>
      rcases hcp : client.changePassword d.id d.password with _ | e1 <;>
      rcases hup : client.update d.id (getSecurityUserFromResourceData d) with _ | e2 <;>
      rcases hg : client.get d.id with ⟨_ | u, _ | ge⟩ <;>
      simp [resourceSecurityUserUpdate, resourceSecurityUserRead, hp, hof, hcp, hup, hg]
  · intro hsucc
    cases hp : d.hasChangePassword
    · cases hof : d.hasChangeOtherFields <;>
        rcases hup : client.update d.id (getSecurityUserFromResourceData d) with _ | e2 <;>
        rcases hg : client.get d.id with ⟨_ | u, _ | ge⟩ <;>
        simp [resourceSecurityUserUpdate, resourceSecurityUserRead, hp, hof, hup, hg]
    · have hcp := hsucc hp
      cases hof : d.hasChangeOtherFields <;>
        rcases hup : client.update d.id (getSecurityUserFromResourceData d) with _ | e2 <;>
        rcases hg : client.get d.id with ⟨_ | u, _ | ge⟩ <;>
        simp [resourceSecurityUserUpdate, resourceSecurityUserRead, hp, hof, hcp, hup, hg]
  · intro hp hof hcp
    rcases hup : client.update d.id (getSecurityUserFromResourceData d) with _ | e2 <;>
      rcases hg : client.get d.id with ⟨_ | u, _ | ge⟩ <;>
      simp [resourceSecurityUserUpdate, resourceSecurityUserRead, hp, hof, hcp, hup, hg]

theorem update_call_conditions_witness :
    ClientCall.changePasswordCall pwEmailChangedData.id pwEmailChangedData.password ∈
      (resourceSecurityUserUpdate absentClient pwEmailChangedData).2.2 ∧
    ClientCall.updateCall pwEmailChangedData.id
        (getSecurityUserFromResourceData pwEmailChangedData) ∈
      (resourceSecurityUserUpdate absentClient pwEmailChangedData).2.2 :=
  (update_call_conditions absentClient pwEmailChangedData).2.2
    (by decide) (by decide) rfl

/-- Claim C6: a failing ChangePassword sub-call aborts Update — the error is
returned and the trace holds only the password call, so no general update
call and no reconciling Read were issued; a failing general update sub-call
(after a skipped or successful password call) likewise returns the error with
no reconciling Read in the trace. -/
theorem update_suberror_aborts (client : Client) (d : ResourceData) (e : String) :
    (d.hasChangePassword = true → client.changePassword d.id d.password = some e →
      resourceSecurityUserUpdate client d =
        (d, some e, [ClientCall.changePasswordCall d.id d.password]) ∧
      (∀ i u, ClientCall.updateCall i u ∉ (resourceSecurityUserUpdate client d).2.2) ∧
      (∀ i, ClientCall.getCall i ∉ (resourceSecurityUserUpdate client d).2.2)) ∧
    ((d.hasChangePassword = true → client.changePassword d.id d.password = none) →
      d.hasChangeOtherFields = true →
      client.update d.id (getSecurityUserFromResourceData d) = some e →
      resourceSecurityUserUpdate client d =
        (d, some e,
          (if d.hasChangePassword then
            [ClientCall.changePasswordCall d.id d.password] else []) ++
          [ClientCall.updateCall d.id (getSecurityUserFromResourceData d)]) ∧
      (∀ i, ClientCall.getCall i ∉ (resourceSecurityUserUpdate client d).2.2)) := by
  constructor
  · intro hp hcp
    have heq : resourceSecurityUserUpdate client d =
        (d, some e, [ClientCall.changePasswordCall d.id d.password]) := by
      simp [resourceSecurityUserUpdate, hp, hcp]
    refine ⟨heq, ?_, ?_⟩
    · intro i u
      rw [heq]
      simp
    · intro i
      rw [heq]
      simp
  · intro hsucc hof hup
    have heq : resourceSecurityUserUpdate client d =
        (d, some e,
          (if d.hasChangePassword then
            [ClientCall.changePasswordCall d.id d.password] else []) ++
          [ClientCall.updateCall d.id (getSecurityUserFromResourceData d)]) := by
      cases hp : d.hasChangePassword
      · simp [resourceSecurityUserUpdate, hp, hof, hup]
      · have hcp := hsucc hp
        simp [resourceSecurityUserUpdate, hp, hof, hcp, hup]
    refine ⟨heq, ?_⟩
    intro i
    rw [heq]
    cases d.hasChangePassword <;> simp

theorem update_suberror_aborts_witness :
    (resourceSecurityUserUpdate pwFailClient pwEmailChangedData =
      (pwEmailChangedData, some "pw boom",
        [ClientCall.changePasswordCall pwEmailChangedData.id pwEmailChangedData.password])) ∧
    (resourceSecurityUserUpdate updateFailClient pwEmailChangedData =
      (pwEmailChangedData, some "update failed",
        (if pwEmailChangedData.hasChangePassword then
          [ClientCall.changePasswordCall pwEmailChangedData.id pwEmailChangedData.password]
         else []) ++
        [ClientCall.updateCall pwEmailChangedData.id
          (getSecurityUserFromResourceData pwEmailChangedData)])) :=
  ⟨((update_suberror_aborts pwFailClient pwEmailChangedData "pw boom").1
      (by decide) rfl).1,
   ((update_suberror_aborts updateFailClient pwEmailChangedData "update failed").2
      (fun _ => rfl) (by decide) rfl).1⟩

/-- Claim C10: every general update call issued by Update targets `d.Id()` and
carries the full `security.User` record built from the current configuration,
password included — in particular the payload's password equals the
configuration's password even when the password did not change. -/
theorem general_update_payload_full_record (client : Client) (d : ResourceData)
    (i : String) (u : User)
    (h : ClientCall.updateCall i u ∈ (resourceSecurityUserUpdate client d).2.2) :
    i = d.id ∧ u = getSecurityUserFromResourceData d ∧ u.password = d.password := by
  cases hp : d.hasChangePassword <;>
    cases hof : d.hasChangeOtherFields <;>
    rcases hcp : client.changePassword d.id d.password with _ | e1 <;>
    rcases hup : client.update d.id (getSecurityUserFromResourceData d) with _ | e2 <;>
    rcases hg : client.get d.id with ⟨_ | uu, _ | ge⟩ <;>
    simp [resourceSecurityUserUpdate, resourceSecurityUserRead, hp, hof, hcp, hup, hg] at h <;>
    exact ⟨h.1, h.2, by rw [h.2]; rfl⟩

theorem general_update_payload_full_record_witness :
    emailOnlyChangedData.hasChangePassword = false ∧
    (getSecurityUserFromResourceData emailOnlyChangedData).password =
      emailOnlyChangedData.password :=
  ⟨by decide,
   (general_update_payload_full_record absentClient emailOnlyChangedData
      emailOnlyChangedData.id (getSecurityUserFromResourceData emailOnlyChangedData)
      (by decide)).2.2⟩

end NexusProvider
